import Mathlib

/-!
Verification of the oriented-rectangle overlap detector in `overlapcheck.py`.

The embedding models:
  * `create_rectangle` (lines 7-27): the fixed local corner list and the
    rotate-then-translate map into the global frame;
  * `transform_and_check` / `is_overlap` (lines 36-80): the bidirectional
    corner-containment heuristic;
  * `overlap` (lines 29-34): the exact tester, which delegates to the
    external shapely `Polygon.intersects`; it is modelled from the spec
    (section 4.2) as nonempty intersection of the two closed regions;
  * `caller` (lines 82-248): the scenario generator;
  * the `__main__` report loop (lines 288-293).

Real-valued scalars are modelled by `ℝ`; the boolean returns of the Python
functions are modelled as `Prop`s.
-/

namespace OverlapCheck

/-- A rectangle as passed around in `overlapcheck.py`: reference center
`(cx, cy)`, heading `t` (radians, unnormalized), and the four independent
extents front `lf`, left `wl`, rear `lr`, right `wr`. -/
structure Rect where
  cx : ℝ
  cy : ℝ
  t : ℝ
  lf : ℝ
  wl : ℝ
  lr : ℝ
  wr : ℝ

/-- Local corner x-coordinates of the moving rectangle, line 40 of the
source: `corners_x = [-lr1, -lr1, lf1, lf1]`. -/
def corners_x (r : Rect) : List ℝ := [-r.lr, -r.lr, r.lf, r.lf]

/-- Local corner y-coordinates of the moving rectangle, line 39 of the
source: `corners_y = [wl1, -wr1, -wr1, wl1]`. -/
def corners_y (r : Rect) : List ℝ := [r.wl, -r.wr, -r.wr, r.wl]

/-- Local corners used by `create_rectangle` (lines 9-14):
`[(-lr, -wr), (lf, -wr), (lf, wl), (-lr, wl)]`. -/
def rectCorners (r : Rect) : List (ℝ × ℝ) :=
  [(-r.lr, -r.wr), (r.lf, -r.wr), (r.lf, r.wl), (-r.lr, r.wl)]

/-- Rotation by the heading followed by translation to the center, as in
lines 59-64 of the source (`x_rot = x*ct1 - y*st1` etc., then `+ cx1`). -/
noncomputable def toGlobal (r : Rect) (p : ℝ × ℝ) : ℝ × ℝ :=
  ((p.1 * Real.cos r.t) - (p.2 * Real.sin r.t) + r.cx,
   (p.1 * Real.sin r.t) + (p.2 * Real.cos r.t) + r.cy)

/-- Translation by `-center` followed by rotation by `-heading`, as in
lines 67-72 of the source (`lx = tx*ct2 + ty*st2`, `ly = -tx*st2 + ty*ct2`). -/
noncomputable def toLocal (r : Rect) (p : ℝ × ℝ) : ℝ × ℝ :=
  (((p.1 - r.cx) * Real.cos r.t) + ((p.2 - r.cy) * Real.sin r.t),
   (-(p.1 - r.cx) * Real.sin r.t) + ((p.2 - r.cy) * Real.cos r.t))

/-- The containment test of line 75 of the source:
`min_x <= lx <= max_x and min_y <= ly <= max_y` with
`min_x = -lr2`, `max_x = lf2`, `min_y = -wr2`, `max_y = wl2`.
All four comparisons are inclusive. -/
def inBounds (r : Rect) (p : ℝ × ℝ) : Prop :=
  (-r.lr ≤ p.1 ∧ p.1 ≤ r.lf) ∧ (-r.wr ≤ p.2 ∧ p.2 ≤ r.wl)

/-- `transform_and_check` (lines 37-77): some corner of `a`, taken from the
parallel lists `corners_x`/`corners_y`, transformed to the global frame with
the pose of `a` and then into the local frame of `b`, lies in the local
bounding box of `b`. -/
def transform_and_check (a b : Rect) : Prop :=
  ∃ p ∈ (corners_x a).zip (corners_y a), inBounds b (toLocal b (toGlobal a p))

/-- `is_overlap` (lines 79-80): the corner-containment check run in both
directions. -/
def is_overlap (a b : Rect) : Prop :=
  transform_and_check a b ∨ transform_and_check b a

/-- The polygon drawn by `create_rectangle` (lines 16-27): the four local
corners rotated by the heading and translated by the center. -/
noncomputable def create_rectangle (r : Rect) : List (ℝ × ℝ) :=
  (rectCorners r).map fun q =>
    (r.cx + Real.cos r.t * q.1 - Real.sin r.t * q.2,
     r.cy + Real.sin r.t * q.1 + Real.cos r.t * q.2)

/-- Modelled from the spec: membership of a point in the closed polygonal
region of a rectangle.  The exact tester of `overlap` (lines 29-34) calls
the external shapely `Polygon.intersects`, whose code is not in the
repository; the spec (section 4.2) describes it as a test on the closed
polygonal regions.  For a rectangle the closed region bounded by the
`create_rectangle` polygon is the set of points whose local coordinates lie
in the local box `[-lr, lf] × [-wr, wl]`. -/
def inRegion (r : Rect) (p : ℝ × ℝ) : Prop :=
  inBounds r (toLocal r p)

/-- Modelled from the spec: membership of a point in the interior of the
closed polygonal region of a rectangle (all four local-box comparisons
strict). -/
def inInterior (r : Rect) (p : ℝ × ℝ) : Prop :=
  (-r.lr < (toLocal r p).1 ∧ (toLocal r p).1 < r.lf) ∧
    (-r.wr < (toLocal r p).2 ∧ (toLocal r p).2 < r.wl)

/-- Modelled from the spec: the exact tester `overlap` (lines 29-34),
section 4.2 of the spec: true iff the two closed polygonal regions share at
least one point. -/
def overlap (a b : Rect) : Prop :=
  ∃ p : ℝ × ℝ, inRegion a p ∧ inRegion b p

/-- A rectangle with four pairwise distinct extents, used to separate the
two corner orderings. -/
def c7rect : Rect := ⟨0, 0, 0, 1, 2, 3, 4⟩

/-- A wide, short rectangle at heading 0 centered at the origin: its region
is the box `[-2, 2] × [-1/2, 1/2]`. -/
noncomputable def barH : Rect := ⟨0, 0, 0, 2, 1/2, 2, 1/2⟩

/-- A narrow, tall rectangle at heading 0 centered at the origin: its region
is the box `[-1/2, 1/2] × [-2, 2]`.  Together with `barH` it forms a
four-pointed-star (plus-shaped) crossing. -/
noncomputable def barV : Rect := ⟨0, 0, 0, 1/2, 2, 1/2, 2⟩

/-- A small axis-aligned square at the origin, strictly smaller than `barV`
in all four extents. -/
noncomputable def smallB : Rect := ⟨0, 0, 0, 9/20, 9/20, 9/20, 9/20⟩

/-- A scenario produced by `caller`: one fourteen-parameter test case
`(cx1, cy1, o1, lf1, wl1, lr1, wr1, cx2, cy2, o2, lf2, wl2, lr2, wr2)`. -/
structure Scenario where
  cx1 : ℝ
  cy1 : ℝ
  o1 : ℝ
  lf1 : ℝ
  wl1 : ℝ
  lr1 : ℝ
  wr1 : ℝ
  cx2 : ℝ
  cy2 : ℝ
  o2 : ℝ
  lf2 : ℝ
  wl2 : ℝ
  lr2 : ℝ
  wr2 : ℝ

/-- numpy `deg2rad`: degrees to radians. -/
noncomputable def deg2rad (x : ℝ) : ℝ := x * Real.pi / 180

/-- Longitudinal displacement presets of `caller`, line 102. -/
def lsy : Fin 11 → ℝ := ![0, 6, 10, 14, 22, 34, 44, 50, 56, 62, 70]

/-- Lateral displacement presets of `caller`, line 103. -/
def lsx : Fin 11 → ℝ := ![1, 1, 1, 1, 1, 1, 1, 1, 3, 4, 5]

/-- Front-extent deltas for the second rectangle, line 104. -/
noncomputable def lfs2 : Fin 11 → ℝ :=
  ![0, 0, 0, 0, 0, 0, -0.5, -0.8, 2.0, 3.0, 4.0]

/-- Left-extent deltas for the second rectangle, line 105. -/
noncomputable def wls2 : Fin 11 → ℝ :=
  ![-0.5, -0.5, -0.5, -0.5, 3.0, 4.0, -0.5, -0.5, 0, 0, 0]

/-- Rear-extent deltas for the second rectangle, line 106. -/
noncomputable def lrs2 : Fin 11 → ℝ :=
  ![0, 0, -0.5, -0.7, 0, 0, -0.5, -0.8, 2.0, 3.0, 4.0]

/-- Right-extent deltas for the second rectangle, line 107. -/
noncomputable def wrs2 : Fin 11 → ℝ :=
  ![0, 0, -1.5, -1.7, 2.0, 3.0, 0, 0, -1.0, -1.0, -1.0]

/-- One baseline scenario, the append expression of lines 111, 132 and 139:
first rectangle at `(rx, 4 + lsy[i])`, heading 0, extents `(1, 1, 1, 2)`;
second at `(rx + lsx[i], 4 + fac*ad + lsy[i])`, heading 0, extents shifted
by the delta tables. -/
noncomputable def baseCase (rx ad fac : ℝ) (i : Fin 11) : Scenario :=
  ⟨rx, 4 + lsy i, 0, 1, 1, 1, 2,
    rx + lsx i, 4 + fac * ad + lsy i, 0,
    1 + lfs2 i, 1 + wls2 i, 1 + lrs2 i, 2 + wrs2 i⟩

/-- First baseline block (lines 110-111): `rx = 2`, `ad = 0`, `fac = 1`. -/
noncomputable def block1 : List Scenario := (List.finRange 11).map (baseCase 2 0 1)

/-- Second baseline block, right of centre (lines 128-132): `rx = 14`,
`ad = 1`, `fac = 1`. -/
noncomputable def block2 : List Scenario := (List.finRange 11).map (baseCase 14 1 1)

/-- Third baseline block, left of centre (lines 135-139): `rx = 26`,
`ad = 1`, `fac = -1`. -/
noncomputable def block3 : List Scenario := (List.finRange 11).map (baseCase 26 1 (-1))

/-- One mirrored scenario (lines 146-148): with `x1 = rx + lsx[i]` and
`x2 = rx` the second center x is `2*x2 - x1`; `ad = 0`, `fac = 1`. -/
noncomputable def mirroredCase (rx : ℝ) (i : Fin 11) : Scenario :=
  ⟨rx, 4 + lsy i, 0, 1, 1, 1, 2,
    2 * rx - (rx + lsx i), 4 + 1 * 0 + lsy i, 0,
    1 + lfs2 i, 1 + wls2 i, 1 + lrs2 i, 2 + wrs2 i⟩

/-- Fourth baseline block, mirrored (lines 142-148): `rx = 48`. -/
noncomputable def block4 : List Scenario := (List.finRange 11).map (mirroredCase 48)

/-- Outer heading values in degrees, line 153:
`[i for i in range(-180, 179, 45)]`. -/
def os1 : List ℤ := [-180, -135, -90, -45, 0, 45, 90, 135]

/-- Inner heading offsets in degrees, line 154:
`[i for i in range(0, 31, 10)]`. -/
def os2 : List ℤ := [0, 10, 20, 30]

/-- The retained (outer heading, offset) pairs of the sweep (lines 161-164):
all pairs of `os1 × os2` in loop order, skipping the degenerate `(0, 0)`. -/
def headingPairs : List (ℤ × ℤ) :=
  os1.flatMap fun o1 => (os2.filter fun o2 => ¬(o1 = 0 ∧ o2 = 0)).map fun o2 => (o1, o2)

/-- A sweep scenario with the given positional correction `(dx, dy)` of the
second center added to the default branch of line 223; `o2` is the absolute
heading in degrees (after `o2 += o1`), `ad = 0`, `fac = 0`. -/
noncomputable def sweepCaseAt (rx : ℝ) (o1 o2 : ℤ) (i : Fin 11) (dx dy : ℝ) : Scenario :=
  ⟨rx, 4 + lsy i, deg2rad o1, 1, 1, 1, 2,
    rx + lsx i + dx, 4 + 0 * 0 + lsy i + dy, deg2rad o2,
    1 + lfs2 i, 1 + wls2 i, 1 + lrs2 i, 2 + wrs2 i⟩

/-- The elif cascade of manually tuned positional corrections
(lines 168-223), keyed on the heading pair and the preset index exactly as
in the source; every branch, and the final else, emits one scenario. -/
noncomputable def sweepCase (rx : ℝ) (o1 o2 : ℤ) (i : Fin 11) : Scenario :=
  if o1 = -180 ∧ o2 = o1 + 30 ∧ i = 10 then sweepCaseAt rx o1 o2 i (-1) 0
  else if o1 = -135 ∧ o2 = o1 + 0 ∧ (i = 8 ∨ i = 9 ∨ i = 10) then
    sweepCaseAt rx o1 o2 i (-2.5) 0
  else if o1 = -135 ∧ o2 = o1 + 10 ∧ (i = 8 ∨ i = 9 ∨ i = 10) then
    sweepCaseAt rx o1 o2 i (-2.7) 0
  else if o1 = -135 ∧ o2 = o1 + 20 ∧ (i = 8 ∨ i = 9 ∨ i = 10) then
    sweepCaseAt rx o1 o2 i (-2.7) 0
  else if o1 = -135 ∧ o2 = o1 + 30 ∧ (i = 8 ∨ i = 9 ∨ i = 10) then
    sweepCaseAt rx o1 o2 i (-2.7) 0
  else if o1 = -90 ∧ o2 = o1 + 0 ∧ (i = 8 ∨ i = 9) then
    sweepCaseAt rx o1 o2 i (-2.7) 0
  else if o1 = -90 ∧ o2 = o1 + 0 ∧ i = 10 then sweepCaseAt rx o1 o2 i (-3.5) 0
  else if o1 = -90 ∧ o2 = o1 + 0 ∧ (i : ℕ) < 6 then
    sweepCaseAt rx o1 o2 i 0 (-0.5)
  else if o1 = -90 ∧ o2 = o1 + 10 ∧ (i = 8 ∨ i = 9 ∨ i = 10) then
    sweepCaseAt rx o1 o2 i (-3.0) 0
  else if o1 = -90 ∧ o2 = o1 + 20 ∧ (i = 8 ∨ i = 9 ∨ i = 10) then
    sweepCaseAt rx o1 o2 i (-3.0) 0
  else if o1 = -90 ∧ o2 = o1 + 30 ∧ (i = 8 ∨ i = 9 ∨ i = 10) then
    sweepCaseAt rx o1 o2 i (-3.0) 0
  else if o1 = -45 ∧ o2 = o1 + 0 ∧ (i = 8 ∨ i = 9 ∨ i = 10) then
    sweepCaseAt rx o1 o2 i (-2.7) 0
  else if o1 = -45 ∧ o2 = o1 + 10 ∧ (i = 8 ∨ i = 9 ∨ i = 10) then
    sweepCaseAt rx o1 o2 i (-2.7) 0
  else if o1 = -45 ∧ o2 = o1 + 20 ∧ (i = 7 ∨ i = 8 ∨ i = 9 ∨ i = 10) then
    sweepCaseAt rx o1 o2 i (-2.7) 0
  else if o1 = -45 ∧ o2 = o1 + 30 ∧ (i = 8 ∨ i = 9 ∨ i = 10) then
    sweepCaseAt rx o1 o2 i (-2.7) 0
  else if o1 = -45 ∧ o2 = o1 + 30 ∧ i = 7 then sweepCaseAt rx o1 o2 i (-1) 0
  else if o1 = 45 ∧ o2 = o1 + 0 ∧ (i = 9 ∨ i = 10) then
    sweepCaseAt rx o1 o2 i (-1.5) 0
  else if o1 = 45 ∧ o2 = o1 + 10 ∧ (i = 9 ∨ i = 10) then
    sweepCaseAt rx o1 o2 i (-2.7) 0
  else if o1 = 45 ∧ o2 = o1 + 20 ∧ (i = 9 ∨ i = 10) then
    sweepCaseAt rx o1 o2 i (-2.7) 0
  else if o1 = 45 ∧ o2 = o1 + 30 ∧ (i = 9 ∨ i = 10) then
    sweepCaseAt rx o1 o2 i (-2.7) 0
  else if o1 = 90 ∧ o2 = o1 + 0 ∧ (i = 9 ∨ i = 10) then
    sweepCaseAt rx o1 o2 i (-2.7) 0
  else if o1 = 90 ∧ o2 = o1 + 0 ∧ i = 8 then sweepCaseAt rx o1 o2 i (-0.7) 0
  else if o1 = 90 ∧ o2 = o1 + 0 ∧ (i : ℕ) < 6 then
    sweepCaseAt rx o1 o2 i 0 (-0.5)
  else if o1 = 90 ∧ o2 = o1 + 10 ∧ (i = 9 ∨ i = 10) then
    sweepCaseAt rx o1 o2 i (-2.7) 0
  else if o1 = 90 ∧ o2 = o1 + 20 ∧ (i = 9 ∨ i = 10) then
    sweepCaseAt rx o1 o2 i (-2.7) 0
  else if o1 = 90 ∧ o2 = o1 + 30 ∧ (i = 9 ∨ i = 10) then
    sweepCaseAt rx o1 o2 i (-2.7) 0
  else if o1 = 135 ∧ o2 = o1 + 0 ∧ (i = 9 ∨ i = 10) then
    sweepCaseAt rx o1 o2 i (-2.0) 0
  else sweepCaseAt rx o1 o2 i 0 0

/-- The 11 scenarios of the k-th retained heading pair: `rx` starts at 48
and `rx += 12` precedes each group (line 166), so the k-th group uses
`rx = 60 + 12*k`. -/
noncomputable def sweepBlock (k : ℕ) (p : ℤ × ℤ) : List Scenario :=
  (List.finRange 11).map fun i => sweepCase (60 + 12 * (k : ℝ)) p.1 (p.1 + p.2) i

/-- All sweep scenarios, in loop order (lines 161-223). -/
noncomputable def sweepCases : List Scenario :=
  (headingPairs.enum.map fun q => sweepBlock q.1 q.2).flatten

/-- The full ordered scenario list built by `caller` (lines 109-223). -/
noncomputable def test_cases : List Scenario :=
  block1 ++ block2 ++ block3 ++ block4 ++ sweepCases

/-- The label printed for one result, line 291 of the source. -/
def overlapLabel (b : Bool) : String := if b then "Overlap" else "No Overlap"

/-- The report loop of lines 288-293: `enumerate` index `i`, `continue`
while `i < startId`, print the 1-based label, `break` after printing when
`i = stopId`.  The output is modelled as the list of (1-based index, label)
pairs in print order. -/
def reportLines (s e : ℕ) : ℕ → List (Scenario × Bool) → List (ℕ × String)
  | _, [] => []
  | i, c :: cs =>
    if i < s then reportLines s e (i + 1) cs
    else (i + 1, overlapLabel c.2) :: if i = e then [] else reportLines s e (i + 1) cs

/-- The report loop started at index 0 on the full results list. -/
def report (results : List (Scenario × Bool)) (s e : ℕ) : List (ℕ × String) :=
  reportLines s e 0 results

/-- A fixed scenario payload; the report loop never inspects it. -/
def dummyScenario : Scenario := ⟨0, 0, 0, 0, 0, 0, 0, 0, 0, 0, 0, 0, 0, 0⟩

/-- A three-element results list used to probe the report window. -/
def exampleResults : List (Scenario × Bool) :=
  [(dummyScenario, true), (dummyScenario, true), (dummyScenario, true)]

/-- Undoing the rigid motion of a rectangle recovers the local point:
the composition computed in lines 59-72 of the source is the identity,
by `sin² + cos² = 1`. -/
theorem toLocal_toGlobal (r : Rect) (p : ℝ × ℝ) : toLocal r (toGlobal r p) = p := by
  obtain ⟨x, y⟩ := p
  unfold toLocal toGlobal
  have h := Real.sin_sq_add_cos_sq r.t
  refine Prod.ext ?_ ?_
  · show (x * Real.cos r.t - y * Real.sin r.t + r.cx - r.cx) * Real.cos r.t +
      (x * Real.sin r.t + y * Real.cos r.t + r.cy - r.cy) * Real.sin r.t = x
    linear_combination x * h
  · show -(x * Real.cos r.t - y * Real.sin r.t + r.cx - r.cx) * Real.sin r.t +
      (x * Real.sin r.t + y * Real.cos r.t + r.cy - r.cy) * Real.cos r.t = y
    linear_combination y * h

/-- Claim C2: for every two rectangles `A` and `B` (no restriction on the
sign of any of the seven parameters of either), `is_overlap A B` returns the
same boolean as `is_overlap B A`. -/
theorem is_overlap_comm (a b : Rect) : is_overlap a b ↔ is_overlap b a := by
  unfold is_overlap
  exact or_comm

/-- Claim C4: for every rectangle whose four extents are nonnegative (any
center, any unnormalized heading), `is_overlap A A` returns true: the
rear-left corner of `A`, mapped to the global frame and back into the local
frame of `A`, lies (inclusively) inside the local box of `A`. -/
theorem self_overlap (a : Rect) (hlf : 0 ≤ a.lf) (hwl : 0 ≤ a.wl)
    (hlr : 0 ≤ a.lr) (hwr : 0 ≤ a.wr) : is_overlap a a := by
  left
  refine ⟨(-a.lr, a.wl), ?_, ?_⟩
  · simp [corners_x, corners_y]
  · rw [toLocal_toGlobal]
    exact ⟨⟨le_refl _, show -a.lr ≤ a.lf by linarith⟩,
      ⟨show -a.wr ≤ a.wl by linarith, le_refl _⟩⟩

/-- Concrete instantiation of `self_overlap`: extents `1`, heading `2`. -/
theorem self_overlap_witness :
    is_overlap ⟨5, -3, 2, 1, 1, 1, 1⟩ ⟨5, -3, 2, 1, 1, 1, 1⟩ :=
  self_overlap ⟨5, -3, 2, 1, 1, 1, 1⟩ (by norm_num) (by norm_num)
    (by norm_num) (by norm_num)

/-- Claim C10: if the opposite extents of the target rectangle `b` sum to a
negative value then the local containment box of `b` is empty, so
`transform_and_check` with target `b` rejects every input rectangle; in
particular `is_overlap b b` is false, so self-overlap genuinely requires
nonnegative extents. -/
theorem negative_extents_no_overlap (b : Rect)
    (h : b.lf + b.lr < 0 ∨ b.wl + b.wr < 0) :
    (∀ a : Rect, ¬ transform_and_check a b) ∧ ¬ is_overlap b b := by
  have hbox : ∀ a : Rect, ¬ transform_and_check a b := by
    rintro a ⟨p, _, ⟨⟨hx1, hx2⟩, ⟨hy1, hy2⟩⟩⟩
    rcases h with h | h
    · linarith
    · linarith
  exact ⟨hbox, fun hov => hov.elim (hbox b) (hbox b)⟩

/-- Concrete instantiation of `negative_extents_no_overlap`: a rectangle
with `lf = -1` and the other extents `0` does not overlap itself. -/
theorem negative_extents_no_overlap_witness :
    ¬ is_overlap ⟨0, 0, 0, -1, 0, 0, 0⟩ ⟨0, 0, 0, -1, 0, 0, 0⟩ :=
  (negative_extents_no_overlap ⟨0, 0, 0, -1, 0, 0, 0⟩ (Or.inl (by norm_num))).2

/-- Unfolding of the containment test at an explicit pair. -/
theorem inBounds_mk (r : Rect) (x y : ℝ) :
    inBounds r (x, y) ↔ ((-r.lr ≤ x ∧ x ≤ r.lf) ∧ (-r.wr ≤ y ∧ y ≤ r.wl)) :=
  Iff.rfl

/-- The zipped corner lists of lines 39-40 enumerate exactly the four local
corners, starting at the rear-left one. -/
theorem mem_zip_corners (a : Rect) (p : ℝ × ℝ)
    (hp : p ∈ (corners_x a).zip (corners_y a)) :
    p = (-a.lr, a.wl) ∨ p = (-a.lr, -a.wr) ∨ p = (a.lf, -a.wr) ∨ p = (a.lf, a.wl) := by
  simpa [corners_x, corners_y, List.zip_cons_cons] using hp

/-- For nonnegative extents every local corner of a rectangle lies in the
local box of that same rectangle. -/
theorem corner_inBounds (a : Rect) (h1 : 0 ≤ a.lf) (h2 : 0 ≤ a.wl)
    (h3 : 0 ≤ a.lr) (h4 : 0 ≤ a.wr) (p : ℝ × ℝ)
    (hp : p ∈ (corners_x a).zip (corners_y a)) : inBounds a p := by
  rcases mem_zip_corners a p hp with h | h | h | h <;> subst h <;>
    exact (inBounds_mk a _ _).mpr ⟨⟨by linarith, by linarith⟩, by linarith, by linarith⟩

/-- One direction of the heuristic is sound for the exact tester: a corner
of `a` contained in the local box of `b` is a common point of the two closed
regions, provided the extents of `a` are nonnegative. -/
theorem tac_sound (a b : Rect) (h1 : 0 ≤ a.lf) (h2 : 0 ≤ a.wl)
    (h3 : 0 ≤ a.lr) (h4 : 0 ≤ a.wr)
    (h : transform_and_check a b) : overlap a b := by
  obtain ⟨p, hp, hb⟩ := h
  refine ⟨toGlobal a p, ?_, hb⟩
  show inBounds a (toLocal a (toGlobal a p))
  rw [toLocal_toGlobal]
  exact corner_inBounds a h1 h2 h3 h4 p hp

/-- Claim C6: for rectangles with nonnegative extents the heuristic has no
false positives relative to the exact tester: `is_overlap a b` implies
`overlap a b`, because a contained corner is a point of both closed
regions. -/
theorem is_overlap_sound (a b : Rect)
    (ha1 : 0 ≤ a.lf) (ha2 : 0 ≤ a.wl) (ha3 : 0 ≤ a.lr) (ha4 : 0 ≤ a.wr)
    (hb1 : 0 ≤ b.lf) (hb2 : 0 ≤ b.wl) (hb3 : 0 ≤ b.lr) (hb4 : 0 ≤ b.wr)
    (h : is_overlap a b) : overlap a b := by
  rcases h with h | h
  · exact tac_sound a b ha1 ha2 ha3 ha4 h
  · obtain ⟨p, p1, p2⟩ := tac_sound b a hb1 hb2 hb3 hb4 h
    exact ⟨p, p2, p1⟩

/-- Concrete instantiation of `is_overlap_sound` at two coincident unit
squares with heading 0. -/
theorem is_overlap_sound_witness :
    overlap ⟨0, 0, 0, 1, 1, 1, 1⟩ ⟨0, 0, 0, 1, 1, 1, 1⟩ :=
  is_overlap_sound ⟨0, 0, 0, 1, 1, 1, 1⟩ ⟨0, 0, 0, 1, 1, 1, 1⟩
    (by norm_num) (by norm_num) (by norm_num) (by norm_num)
    (by norm_num) (by norm_num) (by norm_num) (by norm_num)
    (Or.inl ⟨(-1, 1), by simp [corners_x, corners_y],
      by rw [toLocal_toGlobal]; exact (inBounds_mk _ _ _).mpr (by norm_num)⟩)

/-- Claim C7 counterexample: the sequence of local corner pairs formed from
`corners_x`/`corners_y` in `transform_and_check` (lines 39-40) is NOT the
ordered sequence `(-lr,-wr), (lf,-wr), (lf,wl), (-lr,wl)` used by
`create_rectangle` (lines 9-14): already the first pair differs,
`(-3, 2) ≠ (-3, -4)` for the rectangle with extents `lf=1, wl=2, lr=3,
wr=4`. -/
theorem tac_corner_order_counterexample :
    (corners_x c7rect).zip (corners_y c7rect) ≠ rectCorners c7rect := by
  intro h
  rw [show (corners_x c7rect).zip (corners_y c7rect) =
      [(-3, 2), (-3, -4), (1, -4), (1, 2)] from rfl,
    show rectCorners c7rect = [(-3, -4), (1, -4), (1, 2), (-3, 2)] from rfl] at h
  have h2 : ((-3 : ℝ), (2 : ℝ)) = ((-3 : ℝ), (-4 : ℝ)) := by
    injection h
  have h3 : (2 : ℝ) = -4 := congrArg Prod.snd h2
  norm_num at h3

/-- Claim C7 amended: the corner sequence of `transform_and_check` is the
cyclic rotation by one of the `create_rectangle` ordering: it visits
rear-left, rear-right, front-right, front-left, i.e. it starts at the last
corner of the model ordering and then follows it.  The corner set and the
winding direction coincide; only the starting corner differs. -/
theorem tac_corner_order_rotate (r : Rect) :
    (corners_x r).zip (corners_y r) = (rectCorners r).rotate 3 := rfl

/-- No corner of `barH` lies in the local box of `barV`. -/
theorem barH_barV_no_corner_1 : ¬ transform_and_check barH barV := by
  rintro ⟨p, hp, hb⟩
  rcases mem_zip_corners _ _ hp with h | h | h | h <;> subst h <;>
    · rw [show toLocal barV (toGlobal barH _) = _ from toLocal_toGlobal barV _,
        inBounds_mk] at hb
      norm_num [barH, barV] at hb

/-- No corner of `barV` lies in the local box of `barH`. -/
theorem barH_barV_no_corner_2 : ¬ transform_and_check barV barH := by
  rintro ⟨p, hp, hb⟩
  rcases mem_zip_corners _ _ hp with h | h | h | h <;> subst h <;>
    · rw [show toLocal barH (toGlobal barV _) = _ from toLocal_toGlobal barH _,
        inBounds_mk] at hb
      norm_num [barH, barV] at hb

/-- The origin is interior to both bars. -/
theorem barH_barV_interior : inInterior barH (0, 0) ∧ inInterior barV (0, 0) := by
  constructor <;>
    · refine ⟨⟨?_, ?_⟩, ?_, ?_⟩ <;> norm_num [toLocal, barH, barV]

/-- Claim C1: there is a pair of rectangles whose closed regions share
interior points while no corner of either lies in the local box of the
other (the plus-shaped crossing of `barH` and `barV`), and for every such
configuration the heuristic `is_overlap` is false while the exact tester
`overlap` is true: the two testers are not equivalent and the divergence is
reproducible. -/
theorem star_crossing_divergence :
    (∃ a b : Rect, (∃ p, inInterior a p ∧ inInterior b p) ∧
      (¬ transform_and_check a b ∧ ¬ transform_and_check b a) ∧
      ¬ is_overlap a b ∧ overlap a b) ∧
    ∀ a b : Rect, (∃ p, inInterior a p ∧ inInterior b p) →
      (¬ transform_and_check a b ∧ ¬ transform_and_check b a) →
      ¬ is_overlap a b ∧ overlap a b := by
  have interior_mem : ∀ (r : Rect) (p : ℝ × ℝ), inInterior r p → inRegion r p := by
    rintro r p ⟨⟨g1, g2⟩, g3, g4⟩
    exact ⟨⟨le_of_lt g1, le_of_lt g2⟩, le_of_lt g3, le_of_lt g4⟩
  have main : ∀ a b : Rect, (∃ p, inInterior a p ∧ inInterior b p) →
      (¬ transform_and_check a b ∧ ¬ transform_and_check b a) →
      ¬ is_overlap a b ∧ overlap a b := by
    rintro a b ⟨p, hpa, hpb⟩ ⟨n1, n2⟩
    refine ⟨?_, ⟨p, interior_mem a p hpa, interior_mem b p hpb⟩⟩
    rintro (h | h)
    · exact n1 h
    · exact n2 h
  refine ⟨⟨barH, barV, ⟨(0, 0), barH_barV_interior.1, barH_barV_interior.2⟩,
    ⟨barH_barV_no_corner_1, barH_barV_no_corner_2⟩, ?_⟩, main⟩
  exact main barH barV ⟨(0, 0), barH_barV_interior.1, barH_barV_interior.2⟩
    ⟨barH_barV_no_corner_1, barH_barV_no_corner_2⟩

/-- Concrete instantiation of the universal part of
`star_crossing_divergence` at the plus-shaped crossing. -/
theorem star_crossing_divergence_witness :
    ¬ is_overlap barH barV ∧ overlap barH barV :=
  star_crossing_divergence.2 barH barV
    ⟨(0, 0), barH_barV_interior.1, barH_barV_interior.2⟩
    ⟨barH_barV_no_corner_1, barH_barV_no_corner_2⟩

/-- Claim C3 counterexample: `is_overlap barH smallB` is true (a corner of
`smallB` lies in the box of `barH`), `barV` keeps the center and heading of
`smallB` and strictly increases all four extents, yet
`is_overlap barH barV` is false: the heuristic is not monotone under
growing the second rectangle in place. -/
theorem monotonicity_counterexample :
    is_overlap barH smallB ∧
    barV.cx = smallB.cx ∧ barV.cy = smallB.cy ∧ barV.t = smallB.t ∧
    smallB.lf < barV.lf ∧ smallB.wl < barV.wl ∧
    smallB.lr < barV.lr ∧ smallB.wr < barV.wr ∧
    ¬ is_overlap barH barV := by
  refine ⟨Or.inr ⟨(-(9/20), 9/20), by simp [smallB, corners_x, corners_y], ?_⟩,
    rfl, rfl, rfl, by norm_num [smallB, barV], by norm_num [smallB, barV],
    by norm_num [smallB, barV], by norm_num [smallB, barV], ?_⟩
  · rw [show toLocal barH (toGlobal smallB _) = _ from toLocal_toGlobal barH _,
      inBounds_mk]
    norm_num [barH]
  · rintro (h | h)
    · exact barH_barV_no_corner_1 h
    · exact barH_barV_no_corner_2 h

/-- Claim C3 amended: if the overlap is witnessed by a corner of `A`
contained in the local box of `B` (the first direction of the check), then
for any `B'` with the same center and heading and all four extents strictly
increased, that containment persists, so `is_overlap A B'` remains true.
The unrestricted statement is refuted by `monotonicity_counterexample`:
when the only witness is a corner of `B` inside the box of `A`, growing `B`
can move every corner of `B` out of the box of `A` without any corner of
`A` entering the grown box. -/
theorem corner_containment_monotone (a b b' : Rect)
    (hcx : b'.cx = b.cx) (hcy : b'.cy = b.cy) (ht : b'.t = b.t)
    (hlf : b.lf < b'.lf) (hwl : b.wl < b'.wl)
    (hlr : b.lr < b'.lr) (hwr : b.wr < b'.wr)
    (h : transform_and_check a b) : is_overlap a b' := by
  obtain ⟨p, hp, hb⟩ := h
  obtain ⟨⟨g1, g2⟩, g3, g4⟩ := hb
  left
  refine ⟨p, hp, ?_⟩
  have hloc : toLocal b' (toGlobal a p) = toLocal b (toGlobal a p) := by
    unfold toLocal
    rw [hcx, hcy, ht]
  rw [hloc]
  exact ⟨⟨by linarith, by linarith⟩, by linarith, by linarith⟩

/-- Concrete instantiation of `corner_containment_monotone`: a unit square
containing a corner of itself, grown to the square of extent 2. -/
theorem corner_containment_monotone_witness :
    is_overlap ⟨0, 0, 0, 1, 1, 1, 1⟩ ⟨0, 0, 0, 2, 2, 2, 2⟩ :=
  corner_containment_monotone ⟨0, 0, 0, 1, 1, 1, 1⟩ ⟨0, 0, 0, 1, 1, 1, 1⟩
    ⟨0, 0, 0, 2, 2, 2, 2⟩ rfl rfl rfl
    (by norm_num) (by norm_num) (by norm_num) (by norm_num)
    ⟨(-1, 1), by simp [corners_x, corners_y],
      by rw [toLocal_toGlobal]; exact (inBounds_mk _ _ _).mpr (by norm_num)⟩

/-- Composition of the two heading-0 rigid motions: with both headings zero
the corner transform is a pure translation. -/
theorem toLocal_toGlobal_zero (a b : Rect) (ha : a.t = 0) (hb : b.t = 0)
    (x y : ℝ) :
    toLocal b (toGlobal a (x, y)) = (x + a.cx - b.cx, y + a.cy - b.cy) := by
  unfold toLocal toGlobal
  rw [ha, hb, Real.cos_zero, Real.sin_zero]
  refine Prod.ext ?_ ?_ <;> ring_nf

/-- Claim C5: the containment test of line 75 is inclusive on all four
sides, so the corner `(lf, wl)` sitting exactly on the box boundary counts
as contained; consequently two heading-0 rectangles with nonnegative
extents whose rear/front edges coincide (`b.cx - b.lr = a.cx + a.lf`) and
whose lateral ranges meet report `is_overlap = true`. -/
theorem edge_touch_overlap :
    (∀ b : Rect, 0 ≤ b.lf + b.lr → 0 ≤ b.wl + b.wr → inBounds b (b.lf, b.wl)) ∧
    ∀ a b : Rect, a.t = 0 → b.t = 0 →
      0 ≤ a.lf → 0 ≤ a.wl → 0 ≤ a.lr → 0 ≤ a.wr →
      0 ≤ b.lf → 0 ≤ b.wl → 0 ≤ b.lr → 0 ≤ b.wr →
      b.cx - b.lr = a.cx + a.lf →
      (∃ y : ℝ, a.cy - a.wr ≤ y ∧ y ≤ a.cy + a.wl ∧
        b.cy - b.wr ≤ y ∧ y ≤ b.cy + b.wl) →
      is_overlap a b := by
  constructor
  · intro b h1 h2
    exact (inBounds_mk b _ _).mpr ⟨⟨by linarith, le_refl _⟩, ⟨by linarith, le_refl _⟩⟩
  · rintro a b ha hb ha1 ha2 ha3 ha4 hb1 hb2 hb3 hb4 hedge ⟨y, hy1, hy2, hy3, hy4⟩
    rcases le_total (b.cy + b.wl) (a.cy + a.wl) with hc | hc
    · right
      refine ⟨(-b.lr, b.wl), by simp [corners_x, corners_y], ?_⟩
      rw [toLocal_toGlobal_zero b a hb ha]
      exact (inBounds_mk a _ _).mpr
        ⟨⟨by linarith, by linarith⟩, by linarith, by linarith⟩
    · left
      refine ⟨(a.lf, a.wl), by simp [corners_x, corners_y], ?_⟩
      rw [toLocal_toGlobal_zero a b ha hb]
      exact (inBounds_mk b _ _).mpr
        ⟨⟨by linarith, by linarith⟩, by linarith, by linarith⟩

/-- Concrete instantiation of `edge_touch_overlap`: unit squares centered at
`(0,0)` and `(2,0)`, heading 0, sharing the edge `x = 1`. -/
theorem edge_touch_overlap_witness :
    inBounds (⟨2, 0, 0, 1, 1, 1, 1⟩ : Rect)
      ((⟨2, 0, 0, 1, 1, 1, 1⟩ : Rect).lf, (⟨2, 0, 0, 1, 1, 1, 1⟩ : Rect).wl) ∧
    is_overlap ⟨0, 0, 0, 1, 1, 1, 1⟩ ⟨2, 0, 0, 1, 1, 1, 1⟩ :=
  ⟨edge_touch_overlap.1 ⟨2, 0, 0, 1, 1, 1, 1⟩ (by norm_num) (by norm_num),
    edge_touch_overlap.2 ⟨0, 0, 0, 1, 1, 1, 1⟩ ⟨2, 0, 0, 1, 1, 1, 1⟩ rfl rfl
      (by norm_num) (by norm_num) (by norm_num) (by norm_num)
      (by norm_num) (by norm_num) (by norm_num) (by norm_num)
      (by norm_num) ⟨0, by norm_num, by norm_num, by norm_num, by norm_num⟩⟩

set_option maxRecDepth 20000 in
/-- Claim C8: `caller` produces, in a fixed deterministic order, exactly 385
fourteen-parameter test cases: four baseline blocks of 11 presets each, the
fourth with the second center x mirrored to `2*rx - (rx + lsx[i])`,
followed by 8 outer headings times 4 inner offsets minus the skipped
`(0, 0)` pair, i.e. 31 heading combinations of 11 presets each. -/
theorem caller_test_cases_structure :
    test_cases.length = 385 ∧
    block1.length = 11 ∧ block2.length = 11 ∧ block3.length = 11 ∧
    block4.length = 11 ∧ headingPairs.length = 31 ∧
    sweepCases.length = 31 * 11 ∧
    ∀ i : Fin 11, (mirroredCase 48 i).cx2 = 2 * 48 - (48 + lsx i) :=
  ⟨rfl, rfl, rfl, rfl, rfl, rfl, rfl, fun _ => rfl⟩

/-- Cons unfolding of `List.enumFrom`. -/
theorem enumFrom_cons_eq {α : Type} (n : ℕ) (c : α) (cs : List α) :
    List.enumFrom n (c :: cs) = (n, c) :: List.enumFrom (n + 1) cs := rfl

/-- Beyond the break index the claimed filter window is empty. -/
theorem filter_window_empty (s e : ℕ) :
    ∀ (l : List (Scenario × Bool)) (n : ℕ), e < n →
      (List.enumFrom n l).filter (fun q => s ≤ q.1 ∧ q.1 ≤ e) = []
  | [], _, _ => rfl
  | c :: cs, n, hn => by
    rw [enumFrom_cons_eq, List.filter_cons,
      if_neg (fun hx => absurd (of_decide_eq_true hx).2 (Nat.not_le.mpr hn))]
    exact filter_window_empty s e cs (n + 1) (Nat.lt_succ_of_lt hn)

/-- The report loop started at any index `i ≤ stopId` emits exactly the
window `[max i startId, stopId]` of the enumerated tail, in order, with
1-based labels, provided `startId ≤ stopId`. -/
theorem reportLines_eq_filter (s e : ℕ) (hse : s ≤ e) :
    ∀ (l : List (Scenario × Bool)) (i : ℕ), i ≤ e →
      reportLines s e i l =
        ((List.enumFrom i l).filter fun q => s ≤ q.1 ∧ q.1 ≤ e).map
          (fun q => (q.1 + 1, overlapLabel q.2.2))
  | [], _, _ => rfl
  | c :: cs, i, hie => by
    have hrl : reportLines s e i (c :: cs) =
        if i < s then reportLines s e (i + 1) cs
        else (i + 1, overlapLabel c.2) ::
          if i = e then [] else reportLines s e (i + 1) cs := rfl
    rw [hrl, enumFrom_cons_eq, List.filter_cons]
    by_cases his : i < s
    · rw [if_pos his,
        if_neg (fun hx => absurd (of_decide_eq_true hx).1 (Nat.not_le.mpr his))]
      exact reportLines_eq_filter s e hse cs (i + 1) (by omega)
    · rw [if_neg his, if_pos (decide_eq_true ⟨Nat.le_of_not_lt his, hie⟩),
        List.map_cons]
      by_cases heq : i = e
      · rw [if_pos heq, filter_window_empty s e cs (i + 1) (by omega)]
        rfl
      · rw [if_neg heq, reportLines_eq_filter s e hse cs (i + 1) (by omega)]

/-- Claim C9 counterexample: with `startId = 2` and `stopId = 0` on a
three-element list the loop prints the line for index 2 (the
break-after-print check never fires for indices skipped by `continue`),
while the claimed window `startId ≤ i ≤ min(stopId, length-1)` is empty:
the claimed description of the emitted set is wrong when
`startId > stopId`. -/
theorem report_window_counterexample :
    report exampleResults 2 0 = [(3, "Overlap")] ∧
    (exampleResults.enum.filter fun q => 2 ≤ q.1 ∧ q.1 ≤ 0).map
      (fun q => (q.1 + 1, overlapLabel q.2.2)) = [] :=
  ⟨rfl, rfl⟩

/-- Claim C9 amended: provided `startId ≤ stopId` (as in the program, which
calls the loop with `startId = 0`), the loop emits the line
`Test case {i+1}: label` for exactly the 0-based indices `i` with
`startId ≤ i ≤ stopId` that exist in the list, each exactly once, in
order, with 1-based labels; indices below `startId` are skipped and the
`stopId`-th item is printed before the loop breaks. -/
theorem report_window_spec (results : List (Scenario × Bool)) (s e : ℕ)
    (h : s ≤ e) :
    report results s e =
      (results.enum.filter fun q => s ≤ q.1 ∧ q.1 ≤ e).map
        fun q => (q.1 + 1, overlapLabel q.2.2) := by
  rw [report, reportLines_eq_filter s e h results 0 (Nat.zero_le e)]
  rfl

/-- Concrete instantiation of `report_window_spec` with the window
`[0, 1]` on the three-element list. -/
theorem report_window_spec_witness :
    report exampleResults 0 1 =
      (exampleResults.enum.filter fun q => 0 ≤ q.1 ∧ q.1 ≤ 1).map
        fun q => (q.1 + 1, overlapLabel q.2.2) :=
  report_window_spec exampleResults 0 1 (Nat.zero_le 1)

end OverlapCheck
